import Mathlib

/-!
Verification of the GDS photonic-crystal layout scripts.

This file gives a shallow embedding of the two Python scripts of the
repository, `gds.py` and `test.py`, and proves the claims of the
specification against it.

Modelling conventions:
* Python floats become rationals (`ℚ`); all dimension arithmetic in the
  scripts is exact decimal arithmetic, which `ℚ` reflects.
* The dataclass field `crystal_count : int` becomes `ℤ`; Python's `%` with
  a positive modulus agrees with Lean's `Int.emod`.
* The external layout library (phidl) supplies all geometry; the scripts
  only compute dimensions and call it.  Each library call is embedded as
  the record of dimensions and flags the script passes to it, so a device
  is a record of the computed quantities, and `main` is a trace of
  effects (cells added to the layout, the final file write).
* Python mutation is embedded by explicit state passing: a call that
  receives a mutable record returns, next to its result, the state of
  that record after the call (`*_run` definitions).
* A Python `assert` becomes an `Except PyError` result: `.error
  .assertionError` when the asserted condition is false.
-/

/-- The one kind of error the repository's own code can raise: a failed
`assert` statement. -/
inductive PyError where
  | assertionError
  deriving DecidableEq

/- ----------------------------------------------------------------- -/
/- gds.py : data model                                                -/
/- ----------------------------------------------------------------- -/

/-- The dataclass `DeviceParameters` of gds.py (lines 21-45): a plain
aggregate of numeric layout dimensions, a crystal count, layer indices
and three boolean flags, with the same defaults as the source. -/
structure DeviceParameters where
  total_length : ℚ
  crystal_length : ℚ
  crystal_width : ℚ
  bridge_width : ℚ
  defect_length : ℚ
  defect_width : ℚ
  lattice_constant : ℚ
  crystal_count : ℤ
  outline_width : ℚ
  electrode_overlap : ℚ
  external_electrode_width : ℚ
  external_electrode_skew : ℚ
  crystal_layer : ℤ := 8
  outline_layer : ℤ := 3
  electrode_layer : ℤ := 1
  shorted : Bool := false
  unetched : Bool := false
  off_defect : Bool := false
  deriving DecidableEq

/-- `DeviceParameters.half_crystal_length` (gds.py lines 47-48):
`self.lattice_constant * self.crystal_count`. -/
def DeviceParameters.half_crystal_length (p : DeviceParameters) : ℚ :=
  p.lattice_constant * (p.crystal_count : ℚ)

/-- `DeviceParameters.total_crystal_length` (gds.py lines 50-51):
`self.half_crystal_length() * 2 + self.defect_length`. -/
def DeviceParameters.total_crystal_length (p : DeviceParameters) : ℚ :=
  p.half_crystal_length * 2 + p.defect_length

/-- The local `device_parameters_factory` of `main` (gds.py lines
243-246): `copy.copy` the record, then add `i * 0.015` to the copy's
`defect_length`, and return the copy. -/
def device_parameters_factory (device_parameters_o : DeviceParameters) (i : ℕ) :
    DeviceParameters :=
  let device_parameters := device_parameters_o
  let device_parameters :=
    { device_parameters with
        defect_length := device_parameters.defect_length + (i : ℚ) * 0.015 }
  device_parameters

/-- State-passing form of `device_parameters_factory`: the call result
together with the state of the argument record after the call.  The
source mutates only the fresh `copy.copy`, never the argument, so the
argument's post-state is the argument itself. -/
def device_parameters_factory_run (device_parameters_o : DeviceParameters) (i : ℕ) :
    DeviceParameters × DeviceParameters :=
  (device_parameters_factory device_parameters_o i, device_parameters_o)

/- ----------------------------------------------------------------- -/
/- gds.py : generate_device                                           -/
/- ----------------------------------------------------------------- -/

/-- The device assembled by `generate_device` (gds.py lines 54-122),
embedded as the record of every dimension, count, layer and conditional
choice the script passes to the layout library. -/
structure GDSDevice where
  crystal_rect_size : ℚ × ℚ
  crystal_ref_count : ℕ
  lattice_spacing : ℚ
  bridge_size : ℚ × ℚ
  defect_size : ℚ × ℚ
  internal_electrode_size : ℚ × ℚ
  electrode_gap_size : ℚ × ℚ
  gap_subtracted : Bool
  outline_width : ℚ
  end_uncover_size : ℚ × ℚ
  outline_added : Bool
  external_electrode_length : ℚ
  external_electrode_width : ℚ
  external_electrode_skew : ℚ
  crystal_layer : ℤ
  outline_layer : ℤ
  electrode_layer : ℤ
  deriving DecidableEq

/-- `generate_device` (gds.py lines 54-122).  Line 55 asserts
`parameters.crystal_count % 2 == 1`; when the assertion holds the body
computes the dimensions below and hands them to the layout library. -/
def generate_device (parameters : DeviceParameters) : Except PyError GDSDevice :=
  if parameters.crystal_count % 2 = 1 then
    .ok
      { crystal_rect_size := (parameters.crystal_length, parameters.crystal_width)
        crystal_ref_count := parameters.crystal_count.toNat
        lattice_spacing := parameters.lattice_constant
        bridge_size := (parameters.bridge_width, parameters.half_crystal_length)
        defect_size := (parameters.defect_width, parameters.defect_length)
        internal_electrode_size :=
          (parameters.total_crystal_length,
           max parameters.defect_width parameters.crystal_width + 0.1)
        electrode_gap_size :=
          (parameters.defect_length -
             (if ¬ parameters.off_defect then parameters.electrode_overlap * 2 else 0),
           parameters.total_crystal_length)
        gap_subtracted := ¬ parameters.shorted
        outline_width := parameters.outline_width
        end_uncover_size := (parameters.total_crystal_length, parameters.outline_width)
        outline_added := ¬ parameters.unetched
        external_electrode_length :=
          (parameters.total_length - parameters.total_crystal_length) / 2
        external_electrode_width := parameters.external_electrode_width
        external_electrode_skew := parameters.external_electrode_skew
        crystal_layer := parameters.crystal_layer
        outline_layer := parameters.outline_layer
        electrode_layer := parameters.electrode_layer }
  else
    .error .assertionError

/-- State-passing form of `generate_device`: the call result together
with the state of the argument record after the call.  The body of
`generate_device` only reads `parameters` (no field of the record is
ever assigned), so the post-state is the argument itself. -/
def generate_device_run (parameters : DeviceParameters) :
    Except PyError GDSDevice × DeviceParameters :=
  (generate_device parameters, parameters)

/- ----------------------------------------------------------------- -/
/- test.py : photonic_crystal                                         -/
/- ----------------------------------------------------------------- -/

/-- The three segment shapes chained by `photonic_crystal` in test.py:
`bridge`, `crystal` and `defect` (test.py lines 21-23). -/
inductive SegKind where
  | bridge
  | crystal
  | defect
  deriving DecidableEq

/-- The branch taken by the loop body of `photonic_crystal` (test.py
lines 30-35) at loop index `i`: a bridge at odd `i`, the defect at
`i == crystal_count - 1`, a crystal otherwise.  The comparison with
`crystal_count - 1` is over `ℤ`, as in Python. -/
def loopSeg (crystal_count : ℕ) (i : ℕ) : SegKind :=
  if i % 2 = 1 then .bridge
  else if (i : ℤ) = (crystal_count : ℤ) - 1 then .defect
  else .crystal

/-- The result of `photonic_crystal` (test.py lines 9-43): the chain of
segments connected port-to-port (the origin bridge from line 25 followed
by the `crystal_count * 2` loop segments of lines 29-37), together with
the sizes handed to `pg.straight` for each shape and the outline width. -/
structure PhotonicCrystal where
  chain : List SegKind
  bridge_size : ℚ × ℚ
  defect_size : ℚ × ℚ
  crystal_size : ℚ × ℚ
  outline_width : ℚ
  deriving DecidableEq

/-- `photonic_crystal` (test.py lines 9-43).  `pg.straight((w, l))` is a
straight of width `w` whose ports lie `l` apart along the connection
axis, so the port-to-port extent of a bridge is `bridge_length`, of a
crystal `crystal_width`, and of the defect `defect_width`. -/
def photonic_crystal (crystal_width crystal_height bridge_width bridge_length : ℚ)
    (crystal_count : ℕ) (defect_width defect_height outline_width : ℚ) :
    PhotonicCrystal :=
  { chain := .bridge :: (List.range (crystal_count * 2)).map (loopSeg crystal_count)
    bridge_size := (bridge_width, bridge_length)
    defect_size := (defect_height, defect_width)
    crystal_size := (crystal_height, crystal_width)
    outline_width := outline_width }

/-- Port-to-port extent of one segment along the connection axis. -/
def segExtent (bridge_length crystal_width defect_width : ℚ) : SegKind → ℚ
  | .bridge => bridge_length
  | .crystal => crystal_width
  | .defect => defect_width

/-- Total extent of a chain of port-to-port connected segments along the
connection axis: the sum of the extents of its segments. -/
def chainExtent (bridge_length crystal_width defect_width : ℚ)
    (chain : List SegKind) : ℚ :=
  (chain.map (segExtent bridge_length crystal_width defect_width)).sum

/-- Boolean recogniser for defect segments. -/
def isDefect : SegKind → Bool
  | .defect => true
  | _ => false

/-- Boolean recogniser for crystal segments. -/
def isCrystal : SegKind → Bool
  | .crystal => true
  | _ => false

/-- Boolean recogniser for bridge segments. -/
def isBridge : SegKind → Bool
  | .bridge => true
  | _ => false

/- ----------------------------------------------------------------- -/
/- test.py : photonic_crystal_electrodes                              -/
/- ----------------------------------------------------------------- -/

/-- The result of `photonic_crystal_electrodes` (test.py lines 48-97):
the photonic crystal plus the electrode dimensions the function
computes. -/
structure PCElectrodes where
  crystal : PhotonicCrystal
  crystal_length : ℚ
  internal_electrode_width : ℚ
  internal_electrode_length : ℚ
  external_electrode_length : ℚ
  external_electrode_width : ℚ
  external_electrode_skew : ℚ
  deriving DecidableEq

/-- `photonic_crystal_electrodes` (test.py lines 48-97).  Line 62
asserts `crystal_count % 2 == 1`; when the assertion holds the body
builds the crystal and computes the derived lengths of lines 75-86. -/
def photonic_crystal_electrodes (total_length crystal_width crystal_height
    bridge_width bridge_length : ℚ) (crystal_count : ℕ)
    (defect_width defect_height outline_width electrode_overlap
      external_electrode_width external_electrode_skew : ℚ) :
    Except PyError PCElectrodes :=
  if crystal_count % 2 = 1 then
    let crystal := photonic_crystal crystal_width crystal_height bridge_width
      bridge_length crystal_count defect_width defect_height outline_width
    let crystal_length := bridge_length * ((crystal_count : ℚ) + 1) +
      crystal_width * ((crystal_count : ℚ) - 1) + defect_width
    .ok
      { crystal := crystal
        crystal_length := crystal_length
        internal_electrode_width := max crystal_height defect_height
        internal_electrode_length :=
          ((crystal_count / 2 : ℕ) : ℚ) * (crystal_width + bridge_length) +
            bridge_length + electrode_overlap
        external_electrode_length := (total_length - crystal_length) / 2
        external_electrode_width := external_electrode_width
        external_electrode_skew := external_electrode_skew }
  else
    .error .assertionError

/- ----------------------------------------------------------------- -/
/- gds.py : generate_waveguides                                       -/
/- ----------------------------------------------------------------- -/

/-- The label text computed by `generate_waveguides` (gds.py lines
204-214) from the three flags of the parameter record. -/
def waveguide_label (shorted unetched off_defect : Bool) : String :=
  let label_text := ""
  let label_text := if shorted then label_text ++ "shorted" else label_text
  let label_text :=
    if unetched then
      (if label_text ≠ "" then label_text ++ "," else label_text) ++ "unetched"
    else label_text
  let label_text :=
    if off_defect then
      (if label_text ≠ "" then label_text ++ "," else label_text) ++ "off_defect"
    else label_text
  if label_text = "" then "on_defect" else label_text

/-- The cell assembled by `generate_waveguides` (gds.py lines 151-225):
the devices generated by its two loops, in loop order, together with the
quantities it computes and the two text elements it places.  For
non-negative `n`, Python's `ceil(n/2)` is `(n + 1) / 2` and `floor(n/2)`
is `n / 2` in `ℕ`. -/
structure Waveguides where
  electrode_height : ℚ
  half_device_count : ℕ
  devices : List (Except PyError GDSDevice)
  side_electrode_width : ℚ
  label_text : String
  coordinates : String
  layer : ℤ

/-- `generate_waveguides` (gds.py lines 151-225).  The first loop (lines
167-169) generates a device from `device_parameters_factory
(device_parameters, i)` for `i` in `range(ceil(device_count/2))` and
hangs it west of the center electrode; the second loop (lines 171-173)
does the same for `i` in `range(floor(device_count/2))` with sweep index
`i + ceil(device_count/2)` on the east side. -/
def generate_waveguides (device_count : ℕ) (device_spacing gap_spacing : ℚ)
    (device_parameters : DeviceParameters) (layer : ℤ)
    (device_parameters_f : DeviceParameters → ℕ → DeviceParameters)
    (coordinates : String) : Waveguides :=
  { electrode_height := (((device_count + 1) / 2 : ℕ) : ℚ) * device_spacing
    half_device_count := device_count / 2
    devices :=
      ((List.range ((device_count + 1) / 2)).map fun i =>
        generate_device (device_parameters_f device_parameters i)) ++
      ((List.range (device_count / 2)).map fun i =>
        generate_device (device_parameters_f device_parameters
          (i + (device_count + 1) / 2)))
    side_electrode_width := (600 - gap_spacing * 4) / 2
    label_text := waveguide_label device_parameters.shorted
      device_parameters.unetched device_parameters.off_defect
    coordinates := coordinates
    layer := layer }

/- ----------------------------------------------------------------- -/
/- gds.py : main                                                      -/
/- ----------------------------------------------------------------- -/

/-- The record `main` constructs at gds.py lines 228-241, with the
literal values of the source. -/
def main_initial_parameters : DeviceParameters :=
  { total_length := 40
    crystal_length := 0.6 + 0.03
    crystal_width := 0.77
    crystal_count := 5
    lattice_constant := 0.92
    bridge_width := 0.180 + 0.045
    defect_width := 0.9
    defect_length := 0.515
    outline_width := 0.3
    electrode_overlap := 0.1
    external_electrode_width := 1.92
    external_electrode_skew := 5 }

/-- The flag tuples `(shorted, unetched, off_defect)` of gds.py lines
250-255: `columns = [normal, off_defect, shorted, unetched]`. -/
def columns : List (Bool × Bool × Bool) :=
  [(false, false, false), (false, false, true),
   (true, false, false), (true, true, false)]

/-- The in-place flag assignment of gds.py line 258:
`(p.shorted, p.unetched, p.off_defect) = c` leaves every other field of
the record as it was and overwrites the three flags. -/
def set_flags (p : DeviceParameters) (c : Bool × Bool × Bool) : DeviceParameters :=
  { p with shorted := c.1, unetched := c.2.1, off_defect := c.2.2 }

/-- The state of `main`'s single `device_parameters` record during outer
iteration `i` (gds.py lines 257-258): the constructed record with its
flags overwritten by `columns[floor(i/2)]`. -/
def main_parameters_at (i : ℕ) : DeviceParameters :=
  set_flags main_initial_parameters (columns.getD (i / 2) (false, false, false))

/-- The externally observable environment a run could read: command-line
arguments, environment variables, configuration files.  `main` reads
none of them. -/
structure Env where
  argv : List String
  environ : List (String × String)
  config_files : List (String × String)

/-- The persistent effects of a run of `main`: adding a generated cell
to the in-memory layout at a destination, or writing a file. -/
inductive Effect where
  | addCell (cell : Waveguides) (destination : ℚ × ℚ)
  | writeFile (path : String)

/-- Recogniser for file-write effects. -/
def isFileWrite : Effect → Bool
  | .writeFile _ => true
  | _ => false

/-- Recogniser for cell-addition effects. -/
def isAddCell : Effect → Bool
  | .addCell _ _ => true
  | _ => false

/-- `main` (gds.py lines 227-273), as the trace of its effects.  The
nested loops of lines 257-269 add one `generate_waveguides` cell per
pair `(i, j)` in `range(8) × range(8)` (with the flag assignment of line
258 applied at the top of each outer iteration, and the cell moved to
`(600*i, 1000*j + (i%2)*500)`), and line 273 then writes "out.gds".
The `quickplot` call is commented out in the source.  `main` ignores its
environment: the source reads no argv, environ or configuration.  (Lean
reserves the top-level name `main`, hence the prefix.) -/
def gds_main (_env : Env) : List Effect :=
  ((List.range 8).flatMap fun i =>
    (List.range 8).map fun j =>
      Effect.addCell
        (generate_waveguides 10 20 25 (main_parameters_at i) 2
          device_parameters_factory
          ("(" ++ toString i ++ "," ++ toString j ++ ")"))
        (600 * (i : ℚ), 1000 * (j : ℚ) + ((i % 2 : ℕ) : ℚ) * 500)) ++
  [Effect.writeFile ("out.gds")]

/- ----------------------------------------------------------------- -/
/- Helper lemmas                                                      -/
/- ----------------------------------------------------------------- -/

/-- There are `n` even numbers below `2 * n`. -/
theorem countP_even_range (n : ℕ) :
    (List.range (2 * n)).countP (fun i => decide (i % 2 = 0)) = n := by
  induction n with
  | zero => rfl
  | succ m ih =>
      have e1 : (2 * m) % 2 = 0 := by omega
      have e2 : (2 * m + 1) % 2 = 1 := by omega
      rw [show 2 * (m + 1) = (2 * m) + 1 + 1 by ring, List.range_succ,
        List.countP_append, List.range_succ, List.countP_append, ih]
      simp [List.countP_cons, e1, e2]

/-- There are `n` odd numbers below `2 * n`. -/
theorem countP_odd_range (n : ℕ) :
    (List.range (2 * n)).countP (fun i => decide (i % 2 = 1)) = n := by
  induction n with
  | zero => rfl
  | succ m ih =>
      have e1 : (2 * m) % 2 = 0 := by omega
      have e2 : (2 * m + 1) % 2 = 1 := by omega
      rw [show 2 * (m + 1) = (2 * m) + 1 + 1 by ring, List.range_succ,
        List.countP_append, List.range_succ, List.countP_append, ih]
      simp [List.countP_cons, e1, e2]

/-- There are `m` odd numbers below `2 * m + 1`. -/
theorem countP_odd_range_odd (m : ℕ) :
    (List.range (2 * m + 1)).countP (fun i => decide (i % 2 = 1)) = m := by
  have e1 : (2 * m) % 2 = 0 := by omega
  rw [List.range_succ, List.countP_append, countP_odd_range]
  simp [List.countP_cons, e1]

/-- Every segment is exactly one of bridge, defect, crystal. -/
theorem segkind_count_partition (l : List SegKind) :
    l.countP isBridge + l.countP isDefect + l.countP isCrystal = l.length := by
  induction l with
  | nil => rfl
  | cons a t ih =>
      cases a <;>
        simp [List.countP_cons, isBridge, isDefect, isCrystal,
          List.length_cons] <;> omega

/-- The extent of a chain is determined by how many segments of each
kind it holds. -/
theorem chainExtent_eq_counts (bl cw dw : ℚ) (l : List SegKind) :
    chainExtent bl cw dw l =
      bl * (l.countP isBridge : ℚ) + cw * (l.countP isCrystal : ℚ) +
        dw * (l.countP isDefect : ℚ) := by
  induction l with
  | nil => simp [chainExtent]
  | cons a t ih =>
      simp only [chainExtent] at ih
      cases a <;>
        simp only [chainExtent, List.map_cons, List.sum_cons,
          List.countP_cons, isBridge, isCrystal, isDefect, segExtent] <;>
        rw [ih] <;> simp <;> push_cast <;> ring

/-- The loop of `photonic_crystal` places a bridge exactly at the odd
loop indices. -/
theorem loopSeg_bridge_iff (cc i : ℕ) :
    isBridge (loopSeg cc i) = decide (i % 2 = 1) := by
  by_cases h : i % 2 = 1
  · simp [loopSeg, h, isBridge]
  · simp only [loopSeg, h, if_false, decide_eq_false h]
    split <;> rfl

/-- For odd `cc`, the loop of `photonic_crystal` places the defect
exactly at loop index `cc - 1`. -/
theorem loopSeg_defect_iff (cc i : ℕ) (hodd : cc % 2 = 1) :
    isDefect (loopSeg cc i) = decide (i = cc - 1) := by
  by_cases h : i = cc - 1
  · subst h
    have hpar : ¬ (cc - 1) % 2 = 1 := by omega
    have hz : ((cc - 1 : ℕ) : ℤ) = (cc : ℤ) - 1 := by omega
    simp [loopSeg, hpar, hz, isDefect]
  · by_cases hp : i % 2 = 1
    · simp [loopSeg, hp, isDefect, h]
    · have hz : ¬ (i : ℤ) = (cc : ℤ) - 1 := by omega
      simp [loopSeg, hp, hz, isDefect, h]

/-- The loop of `photonic_crystal` adds exactly `cc` bridges. -/
theorem loop_bridge_count (cc : ℕ) :
    ((List.range (cc * 2)).map (loopSeg cc)).countP isBridge = cc := by
  have hcong : ∀ i ∈ List.range (cc * 2),
      (isBridge ∘ loopSeg cc) i = true ↔
        (fun i => decide (i % 2 = 1)) i = true := by
    intro i _
    rw [Function.comp_apply, loopSeg_bridge_iff]
  rw [List.countP_map, List.countP_congr hcong,
    show cc * 2 = 2 * cc by ring, countP_odd_range]

/-- For odd `cc`, the loop of `photonic_crystal` adds exactly one
defect. -/
theorem loop_defect_count (cc : ℕ) (hodd : cc % 2 = 1) :
    ((List.range (cc * 2)).map (loopSeg cc)).countP isDefect = 1 := by
  have hcong : ∀ i ∈ List.range (cc * 2),
      (isDefect ∘ loopSeg cc) i = true ↔
        (fun i => i == cc - 1) i = true := by
    intro i _
    rw [Function.comp_apply, loopSeg_defect_iff cc i hodd]
    simp
  rw [List.countP_map, List.countP_congr hcong, ← List.count_eq_countP]
  exact List.count_eq_one_of_mem (List.nodup_range _)
    (List.mem_range.2 (by omega))

/-- For even `cc`, the loop of `photonic_crystal` adds no defect: at
index `cc - 1` the bridge branch fires first. -/
theorem loop_defect_count_even (cc : ℕ) (heven : cc % 2 = 0) :
    ((List.range (cc * 2)).map (loopSeg cc)).countP isDefect = 0 := by
  rw [List.countP_map, List.countP_eq_zero]
  intro i hi
  rw [List.mem_range] at hi
  rw [Function.comp_apply]
  by_cases hp : i % 2 = 1
  · simp [loopSeg, hp, isDefect]
  · have hz : ¬ (i : ℤ) = (cc : ℤ) - 1 := by omega
    simp [loopSeg, hp, hz, isDefect]

/-- For odd `cc`, the loop of `photonic_crystal` adds exactly `cc - 1`
crystals. -/
theorem loop_crystal_count (cc : ℕ) (hodd : cc % 2 = 1) :
    ((List.range (cc * 2)).map (loopSeg cc)).countP isCrystal = cc - 1 := by
  have hpart := segkind_count_partition ((List.range (cc * 2)).map (loopSeg cc))
  rw [loop_bridge_count, loop_defect_count cc hodd, List.length_map,
    List.length_range] at hpart
  omega

/- ----------------------------------------------------------------- -/
/- Claim theorems                                                     -/
/- ----------------------------------------------------------------- -/

/-- Claim C1: `generate_device` (gds.py) and, for its argument list,
`photonic_crystal_electrodes` (test.py) fail with an assertion error if
and only if `crystal_count` is even, and for odd `crystal_count` no
repository-written check raises: both return an ordinary result. -/
theorem odd_crystal_count_assertion (p : DeviceParameters)
    (tl cw ch bw bl : ℚ) (cc : ℕ) (dw dh ow eo eew ees : ℚ) :
    (generate_device p = .error .assertionError ↔ p.crystal_count % 2 = 0) ∧
    ((∃ d, generate_device p = .ok d) ↔ p.crystal_count % 2 = 1) ∧
    (photonic_crystal_electrodes tl cw ch bw bl cc dw dh ow eo eew ees =
        .error .assertionError ↔ cc % 2 = 0) ∧
    ((∃ r, photonic_crystal_electrodes tl cw ch bw bl cc dw dh ow eo eew ees =
        .ok r) ↔ cc % 2 = 1) := by
  refine ⟨?_, ?_, ?_, ?_⟩
  · by_cases h : p.crystal_count % 2 = 1 <;> simp [generate_device, h] <;> omega
  · by_cases h : p.crystal_count % 2 = 1 <;> simp [generate_device, h] <;> omega
  · by_cases h : cc % 2 = 1 <;>
      simp [photonic_crystal_electrodes, h] <;> omega
  · by_cases h : cc % 2 = 1 <;>
      simp [photonic_crystal_electrodes, h] <;> omega

/-- Claim C2: the derived-length methods of `DeviceParameters` are pure
functions of the record's fields, consistent with their stated formulas:
`half_crystal_length = lattice_constant * crystal_count` and
`total_crystal_length = 2 * half_crystal_length + defect_length
= 2 * lattice_constant * crystal_count + defect_length`; neither call
modifies the record (they are embedded as pure functions of `p`). -/
theorem derived_length_formulas (p : DeviceParameters) :
    p.half_crystal_length = p.lattice_constant * (p.crystal_count : ℚ) ∧
    p.total_crystal_length = 2 * p.half_crystal_length + p.defect_length ∧
    p.total_crystal_length =
      2 * p.lattice_constant * (p.crystal_count : ℚ) + p.defect_length := by
  refine ⟨rfl, ?_, ?_⟩ <;>
    simp only [DeviceParameters.total_crystal_length,
      DeviceParameters.half_crystal_length] <;> ring

/-- Claim C4: the sweep copy returned by `device_parameters_factory p i`
has `defect_length = p.defect_length + i * 0.015`, every other field is
identical to the source record's, and the argument record itself is left
unchanged by the call. -/
theorem factory_updates_only_defect_length (p : DeviceParameters) (i : ℕ) :
    (device_parameters_factory p i).defect_length =
      p.defect_length + (i : ℚ) * 0.015 ∧
    (device_parameters_factory p i).total_length = p.total_length ∧
    (device_parameters_factory p i).crystal_length = p.crystal_length ∧
    (device_parameters_factory p i).crystal_width = p.crystal_width ∧
    (device_parameters_factory p i).bridge_width = p.bridge_width ∧
    (device_parameters_factory p i).defect_width = p.defect_width ∧
    (device_parameters_factory p i).lattice_constant = p.lattice_constant ∧
    (device_parameters_factory p i).crystal_count = p.crystal_count ∧
    (device_parameters_factory p i).outline_width = p.outline_width ∧
    (device_parameters_factory p i).electrode_overlap = p.electrode_overlap ∧
    (device_parameters_factory p i).external_electrode_width =
      p.external_electrode_width ∧
    (device_parameters_factory p i).external_electrode_skew =
      p.external_electrode_skew ∧
    (device_parameters_factory p i).crystal_layer = p.crystal_layer ∧
    (device_parameters_factory p i).outline_layer = p.outline_layer ∧
    (device_parameters_factory p i).electrode_layer = p.electrode_layer ∧
    (device_parameters_factory p i).shorted = p.shorted ∧
    (device_parameters_factory p i).unetched = p.unetched ∧
    (device_parameters_factory p i).off_defect = p.off_defect ∧
    (device_parameters_factory_run p i).2 = p :=
  ⟨rfl, rfl, rfl, rfl, rfl, rfl, rfl, rfl, rfl, rfl, rfl, rfl, rfl, rfl,
   rfl, rfl, rfl, rfl, rfl⟩

/-- Claim C10: for a record with odd `crystal_count`, `generate_device`
leaves its argument unchanged — the state of the record after the call
is the record itself, since the body only reads it. -/
theorem generate_device_leaves_parameters_unchanged (p : DeviceParameters)
    (hodd : p.crystal_count % 2 = 1) :
    (generate_device_run p).2 = p := rfl

/-- Witness for claim C10 at the record `main` constructs. -/
theorem generate_device_leaves_parameters_unchanged_witness :
    (generate_device_run main_initial_parameters).2 = main_initial_parameters :=
  generate_device_leaves_parameters_unchanged main_initial_parameters
    (by decide)

/-- Claim C6: `main` reads no command-line flags, environment variables
or configuration files, so its behaviour is the same deterministic
effect trace for every environment. -/
theorem main_ignores_environment (env₁ env₂ : Env) :
    gds_main env₁ = gds_main env₂ := rfl

/-- Claim C7: the effect trace of `main` contains exactly one file
write, it writes "out.gds", it is the last effect, and the 64 effects
before it are exactly the additions of the 64 generated cells to the
in-memory layout. -/
theorem main_single_file_write (env : Env) :
    (gds_main env).countP isFileWrite = 1 ∧
    (gds_main env).getLast? = some (Effect.writeFile ("out.gds")) ∧
    ((gds_main env).dropLast).countP isFileWrite = 0 ∧
    ((gds_main env).dropLast).countP isAddCell = 64 ∧
    ((gds_main env).dropLast).length = 64 ∧
    (gds_main env).length = 65 :=
  ⟨rfl, rfl, rfl, rfl, rfl, rfl⟩

/-- Claim C9: `generate_waveguides` invokes the factory exactly once for
each sweep index `i` in `0 .. device_count - 1` — the first loop covers
`0 .. ceil(device_count/2) - 1` and the second the rest — so the devices
it generates are exactly those of the factory records at indices
`0 .. device_count - 1`, in order. -/
theorem waveguides_factory_indices (device_count : ℕ) (ds gs : ℚ)
    (p : DeviceParameters) (layer : ℤ)
    (f : DeviceParameters → ℕ → DeviceParameters) (coords : String) :
    (generate_waveguides device_count ds gs p layer f coords).devices =
      (List.range device_count).map (fun i => generate_device (f p i)) ∧
    (generate_waveguides device_count ds gs p layer f coords).devices.length =
      device_count := by
  have hc : (device_count + 1) / 2 + device_count / 2 = device_count := by
    omega
  have hdev : (generate_waveguides device_count ds gs p layer f coords).devices =
      (List.range device_count).map (fun i => generate_device (f p i)) := by
    show List.map _ _ ++ List.map _ _ = _
    conv_rhs => rw [← hc, List.range_add]
    rw [List.map_append, List.map_map]
    congr 1
    apply List.map_congr_left
    intro i _
    simp [Function.comp, Nat.add_comm]
  refine ⟨hdev, ?_⟩
  rw [hdev, List.length_map, List.length_range]

/-- Claim C5 counterexample: the claim that `DeviceParameters` records
are never mutated in place fails on `main`: the tuple assignment of
gds.py line 258 overwrites the flag fields of the record constructed at
lines 228-241, so at outer iteration 4 the very same record has
`shorted = True` although it was constructed with `shorted = False`. -/
theorem main_mutates_record_in_place :
    main_parameters_at 4 ≠ main_initial_parameters ∧
    (main_parameters_at 4).shorted = true ∧
    main_initial_parameters.shorted = false := by
  refine ⟨fun h => ?_, rfl, rfl⟩
  have hs := congrArg DeviceParameters.shorted h
  rw [show (main_parameters_at 4).shorted = true from rfl,
    show main_initial_parameters.shorted = false from rfl] at hs
  exact Bool.noConfusion hs

/-- Claim C5 (amended): after construction a record is mutated in place
only by `main`'s column-loop flag assignment, which overwrites exactly
the three flag fields; every other field keeps its constructed value,
and the remaining operations — the sweep copy and the generation call —
leave their argument record unchanged. -/
theorem record_mutation_limited_to_flags (i : ℕ) (p : DeviceParameters)
    (j : ℕ) :
    (main_parameters_at i).total_length = main_initial_parameters.total_length ∧
    (main_parameters_at i).crystal_length =
      main_initial_parameters.crystal_length ∧
    (main_parameters_at i).crystal_width = main_initial_parameters.crystal_width ∧
    (main_parameters_at i).bridge_width = main_initial_parameters.bridge_width ∧
    (main_parameters_at i).defect_length = main_initial_parameters.defect_length ∧
    (main_parameters_at i).defect_width = main_initial_parameters.defect_width ∧
    (main_parameters_at i).lattice_constant =
      main_initial_parameters.lattice_constant ∧
    (main_parameters_at i).crystal_count = main_initial_parameters.crystal_count ∧
    (main_parameters_at i).outline_width = main_initial_parameters.outline_width ∧
    (main_parameters_at i).electrode_overlap =
      main_initial_parameters.electrode_overlap ∧
    (main_parameters_at i).external_electrode_width =
      main_initial_parameters.external_electrode_width ∧
    (main_parameters_at i).external_electrode_skew =
      main_initial_parameters.external_electrode_skew ∧
    (main_parameters_at i).crystal_layer = main_initial_parameters.crystal_layer ∧
    (main_parameters_at i).outline_layer = main_initial_parameters.outline_layer ∧
    (main_parameters_at i).electrode_layer =
      main_initial_parameters.electrode_layer ∧
    (device_parameters_factory_run p j).2 = p ∧
    (generate_device_run p).2 = p :=
  ⟨rfl, rfl, rfl, rfl, rfl, rfl, rfl, rfl, rfl, rfl, rfl, rfl, rfl, rfl,
   rfl, rfl, rfl⟩

/-- Claim C3: for odd `crystal_count` and positive dimensions, the chain
built by `photonic_crystal` consists of `crystal_count + 1` bridges,
`crystal_count - 1` crystals and one defect, its total extent along the
connection axis is `bridge_length * (crystal_count + 1) + crystal_width
* (crystal_count - 1) + defect_width`, and this is exactly the value
`photonic_crystal_electrodes` computes as `crystal_length`. -/
theorem photonic_crystal_length_consistent
    (tl cw ch bw bl dw dh ow eo eew ees : ℚ) (cc : ℕ)
    (hodd : cc % 2 = 1) (hbl : 0 < bl) (hcw : 0 < cw) (hdw : 0 < dw) :
    (photonic_crystal cw ch bw bl cc dw dh ow).chain.countP isBridge = cc + 1 ∧
    (photonic_crystal cw ch bw bl cc dw dh ow).chain.countP isCrystal = cc - 1 ∧
    (photonic_crystal cw ch bw bl cc dw dh ow).chain.countP isDefect = 1 ∧
    chainExtent bl cw dw (photonic_crystal cw ch bw bl cc dw dh ow).chain =
      bl * ((cc : ℚ) + 1) + cw * ((cc : ℚ) - 1) + dw ∧
    (∃ r, photonic_crystal_electrodes tl cw ch bw bl cc dw dh ow eo eew ees =
        .ok r ∧
      r.crystal_length =
        chainExtent bl cw dw (photonic_crystal cw ch bw bl cc dw dh ow).chain) := by
  have hb : (photonic_crystal cw ch bw bl cc dw dh ow).chain.countP isBridge =
      cc + 1 := by
    show (SegKind.bridge :: _).countP isBridge = cc + 1
    rw [List.countP_cons, loop_bridge_count]
    simp [isBridge]
  have hcr : (photonic_crystal cw ch bw bl cc dw dh ow).chain.countP isCrystal =
      cc - 1 := by
    show (SegKind.bridge :: _).countP isCrystal = cc - 1
    rw [List.countP_cons, loop_crystal_count cc hodd]
    simp [isCrystal]
  have hd : (photonic_crystal cw ch bw bl cc dw dh ow).chain.countP isDefect =
      1 := by
    show (SegKind.bridge :: _).countP isDefect = 1
    rw [List.countP_cons, loop_defect_count cc hodd]
    simp [isDefect]
  have h1 : 1 ≤ cc := by omega
  have hext : chainExtent bl cw dw
      (photonic_crystal cw ch bw bl cc dw dh ow).chain =
      bl * ((cc : ℚ) + 1) + cw * ((cc : ℚ) - 1) + dw := by
    rw [chainExtent_eq_counts, hb, hcr, hd]
    rw [Nat.cast_add, Nat.cast_sub h1]
    push_cast
    ring
  have hpce : photonic_crystal_electrodes tl cw ch bw bl cc dw dh ow eo eew ees =
      .ok { crystal := photonic_crystal cw ch bw bl cc dw dh ow
            crystal_length := bl * ((cc : ℚ) + 1) + cw * ((cc : ℚ) - 1) + dw
            internal_electrode_width := max ch dh
            internal_electrode_length := ((cc / 2 : ℕ) : ℚ) * (cw + bl) + bl + eo
            external_electrode_length :=
              (tl - (bl * ((cc : ℚ) + 1) + cw * ((cc : ℚ) - 1) + dw)) / 2
            external_electrode_width := eew
            external_electrode_skew := ees } := by
    unfold photonic_crystal_electrodes
    rw [if_pos hodd]
  exact ⟨hb, hcr, hd, hext, ⟨_, hpce, by rw [hext]⟩⟩

/-- Witness for claim C3 at the argument list of the `quickplot` call at
the bottom of test.py. -/
theorem photonic_crystal_length_consistent_witness :
    (photonic_crystal 5 5 2 2 9 4 7 3).chain.countP isBridge = 9 + 1 ∧
    (photonic_crystal 5 5 2 2 9 4 7 3).chain.countP isCrystal = 9 - 1 ∧
    (photonic_crystal 5 5 2 2 9 4 7 3).chain.countP isDefect = 1 ∧
    chainExtent 2 5 4 (photonic_crystal 5 5 2 2 9 4 7 3).chain =
      2 * (((9 : ℕ) : ℚ) + 1) + 5 * (((9 : ℕ) : ℚ) - 1) + 4 ∧
    (∃ r, photonic_crystal_electrodes 200 5 5 2 2 9 4 7 3 1 10 10 = .ok r ∧
      r.crystal_length = chainExtent 2 5 4 (photonic_crystal 5 5 2 2 9 4 7 3).chain) :=
  photonic_crystal_length_consistent 200 5 5 2 2 4 7 3 1 10 10 9
    (by decide) (by norm_num) (by norm_num) (by norm_num)

/-- Claim C8: `photonic_crystal` places a defect segment if and only if
`crystal_count` is odd.  For odd `crystal_count` the defect appears
exactly once, at the centre of the chain, with `(crystal_count - 1) / 2`
crystal segments on each side; for even `crystal_count ≥ 2` the index
`crystal_count - 1` is odd, so the bridge branch shadows the defect
branch and no defect is placed (`photonic_crystal` performs no oddness
check of its own: it is total). -/
theorem photonic_crystal_defect_iff_odd (cw ch bw bl dw dh ow : ℚ) (cc : ℕ) :
    (cc % 2 = 1 →
      (photonic_crystal cw ch bw bl cc dw dh ow).chain.countP isDefect = 1 ∧
      (photonic_crystal cw ch bw bl cc dw dh ow).chain[cc]? =
        some SegKind.defect ∧
      ((photonic_crystal cw ch bw bl cc dw dh ow).chain.take cc).countP
        isCrystal = (cc - 1) / 2 ∧
      ((photonic_crystal cw ch bw bl cc dw dh ow).chain.drop (cc + 1)).countP
        isCrystal = (cc - 1) / 2) ∧
    (cc % 2 = 0 → 2 ≤ cc →
      (photonic_crystal cw ch bw bl cc dw dh ow).chain.countP isDefect = 0 ∧
      loopSeg cc (cc - 1) = SegKind.bridge) := by
  constructor
  · intro hodd
    have h1 : 1 ≤ cc := by omega
    refine ⟨?_, ?_, ?_, ?_⟩
    · show (SegKind.bridge :: _).countP isDefect = 1
      rw [List.countP_cons, loop_defect_count cc hodd]
      simp [isDefect]
    · show (SegKind.bridge :: (List.range (cc * 2)).map (loopSeg cc))[cc]? =
        some SegKind.defect
      obtain ⟨m, rfl⟩ : ∃ m, cc = m + 1 := ⟨cc - 1, by omega⟩
      rw [List.getElem?_cons_succ, List.getElem?_map,
        List.getElem?_range (by omega : m < (m + 1) * 2)]
      have hseg : loopSeg (m + 1) m = SegKind.defect := by
        unfold loopSeg
        rw [if_neg (by omega), if_pos (by push_cast; ring)]
      simp [hseg]
    · show ((SegKind.bridge :: (List.range (cc * 2)).map (loopSeg cc)).take
        cc).countP isCrystal = (cc - 1) / 2
      have hcong : ∀ i ∈ List.range (cc - 1),
          (isCrystal ∘ loopSeg cc) i = true ↔
            (fun i => decide (i % 2 = 0)) i = true := by
        intro i hi
        rw [List.mem_range] at hi
        rw [Function.comp_apply]
        by_cases hp : i % 2 = 1
        · have hi2 : ¬ i % 2 = 0 := by omega
          simp [loopSeg, hp, isCrystal, hi2]
        · have hi2 : i % 2 = 0 := by omega
          have hz : ¬ (i : ℤ) = (cc : ℤ) - 1 := by omega
          simp [loopSeg, hp, hz, isCrystal, hi2]
      rw [List.take_cons (by omega), List.countP_cons, ← List.map_take,
        List.take_range, Nat.min_eq_left (by omega), List.countP_map,
        List.countP_congr hcong]
      obtain ⟨m, hm⟩ : ∃ m, cc - 1 = 2 * m := ⟨(cc - 1) / 2, by omega⟩
      rw [hm, countP_even_range]
      simp [isCrystal] <;> omega
    · show ((SegKind.bridge :: (List.range (cc * 2)).map (loopSeg cc)).drop
        (cc + 1)).countP isCrystal = (cc - 1) / 2
      have hcong2 : ∀ j ∈ List.range cc,
          (isCrystal ∘ loopSeg cc ∘ fun x => cc + x) j = true ↔
            (fun j => decide (j % 2 = 1)) j = true := by
        intro j hj
        rw [List.mem_range] at hj
        show isCrystal (loopSeg cc (cc + j)) = true ↔ _
        by_cases hp : (cc + j) % 2 = 1
        · have hj2 : ¬ j % 2 = 1 := by omega
          simp [loopSeg, hp, isCrystal, hj2]
        · have hj2 : j % 2 = 1 := by omega
          have hz : ¬ ((cc : ℤ) + (j : ℤ)) = (cc : ℤ) - 1 := by omega
          simp [loopSeg, hp, hz, isCrystal, hj2]
      rw [List.drop_succ_cons, ← List.map_drop,
        show cc * 2 = cc + cc by ring, List.range_add,
        List.drop_left' (List.length_range cc), List.map_map, List.countP_map,
        List.countP_congr hcong2]
      obtain ⟨m, rfl⟩ : ∃ m, cc = 2 * m + 1 := ⟨(cc - 1) / 2, by omega⟩
      rw [countP_odd_range_odd]
      omega
  · intro heven h2
    constructor
    · show (SegKind.bridge :: _).countP isDefect = 0
      rw [List.countP_cons, loop_defect_count_even cc heven]
      simp [isDefect]
    · have hpar : (cc - 1) % 2 = 1 := by omega
      simp [loopSeg, hpar]

/-- Witness for claim C8, at an odd count (5) and an even count (4). -/
theorem photonic_crystal_defect_iff_odd_witness :
    ((photonic_crystal 1 1 1 1 5 1 1 1).chain.countP isDefect = 1 ∧
     (photonic_crystal 1 1 1 1 5 1 1 1).chain[5]? = some SegKind.defect ∧
     ((photonic_crystal 1 1 1 1 5 1 1 1).chain.take 5).countP isCrystal =
       (5 - 1) / 2 ∧
     ((photonic_crystal 1 1 1 1 5 1 1 1).chain.drop (5 + 1)).countP isCrystal =
       (5 - 1) / 2) ∧
    ((photonic_crystal 1 1 1 1 4 1 1 1).chain.countP isDefect = 0 ∧
     loopSeg 4 (4 - 1) = SegKind.bridge) :=
  ⟨(photonic_crystal_defect_iff_odd 1 1 1 1 1 1 1 5).1 (by decide),
   (photonic_crystal_defect_iff_odd 1 1 1 1 1 1 1 4).2 (by decide) (by decide)⟩
